import Mathlib

/-!
Verification development for the formai-backend entitlement / webhook core.

The relational store (Prisma/Postgres tables Subscription, UsageCounter,
WebhookEvent, DeviceMap) is modelled as lists of rows in insertion order.
Prisma `findFirst` / `find?` without an `orderBy` is modelled as the first
matching row in insertion order; `findFirst` with `orderBy createdAt desc`
is modelled by `findLatest`, which picks the row with the greatest
`createdAt`.  Timestamps are naturals (milliseconds since epoch; the
webhook payloads carry seconds, converted by `msOfSeconds` mirroring the
`new Date(x * 1000)` calls in the source).  `new Date()` at call time is
passed in explicitly as a `now` parameter.
-/

/-- One row of the Subscription table (schema fields used by the code). -/
structure SubscriptionRow where
  provider : String
  providerCustomerId : String
  providerSubscriptionId : String
  status : String
  plan : Option String
  currentPeriodEnd : Option Nat
  cancelAtPeriodEnd : Option Nat
  deviceId : String
  createdAt : Nat
deriving DecidableEq

/-- One row of the UsageCounter table. -/
structure UsageCounterRow where
  deviceId : String
  scansUsed : Nat
deriving DecidableEq

/-- One row of the WebhookEvent idempotency ledger. -/
structure WebhookEventRow where
  id : String
  provider : String
  type : String
deriving DecidableEq

/-- One row of the DeviceMap correlation table. -/
structure DeviceMapRow where
  provider : String
  key : String
  deviceId : String
deriving DecidableEq

/-- The relational store. -/
structure Db where
  subscriptions : List SubscriptionRow
  usageCounters : List UsageCounterRow
  webhookEvents : List WebhookEventRow
  deviceMaps : List DeviceMapRow
deriving DecidableEq

/-- Return shape of getOrCreateUsage / incrementScanUsage. -/
structure UsageResult where
  scansUsed : Nat
  limit : Nat
deriving DecidableEq

/-- Return shape of getEntitlementByDevice (`expiresAt` is the optional field). -/
structure EntitlementResult where
  active : Bool
  scansUsed : Nat
  limit : Nat
  expiresAt : Option Nat
deriving DecidableEq

/-- Return shape of canPerformScan (`reason` is the optional field). -/
structure ScanGateResult where
  canScan : Bool
  reason : Option String
deriving DecidableEq

/-- The `where` clause of the subscription query in getEntitlementByDevice:
deviceId matches, status in [active, trialing], currentPeriodEnd strictly
greater than now. -/
def subscriptionMatches (deviceId : String) (now : Nat) (s : SubscriptionRow) : Bool :=
  s.deviceId == deviceId &&
    (s.status == "active" || s.status == "trialing") &&
    (match s.currentPeriodEnd with
     | some t => decide (now < t)
     | none => false)

/-- Prisma findFirst with orderBy createdAt desc: the row with maximal
createdAt (first such row in insertion order on ties). -/
def findLatest : List SubscriptionRow → Option SubscriptionRow
  | [] => none
  | r :: rs =>
    match findLatest rs with
    | none => some r
    | some b => if b.createdAt > r.createdAt then some b else some r

/-- getOrCreateUsage from src/dist/lib/entitlement.js: upsert with an empty
update clause, creating the counter at 0 when absent. -/
def getOrCreateUsage (db : Db) (deviceId : String) : Db × UsageResult :=
  match db.usageCounters.find? (fun u => u.deviceId == deviceId) with
  | some u => (db, { scansUsed := u.scansUsed, limit := 1 })
  | none =>
    ({ db with usageCounters := db.usageCounters ++ [{ deviceId := deviceId, scansUsed := 0 }] },
     { scansUsed := 0, limit := 1 })

/-- incrementScanUsage from src/dist/lib/entitlement.js: upsert incrementing
the counter, creating it at 1 when absent. -/
def incrementScanUsage (db : Db) (deviceId : String) : Db × UsageResult :=
  match db.usageCounters.find? (fun u => u.deviceId == deviceId) with
  | some u =>
    ({ db with usageCounters := (db.usageCounters.map
        (fun v => if v.deviceId == deviceId then { v with scansUsed := v.scansUsed + 1 } else v)) },
     { scansUsed := u.scansUsed + 1, limit := 1 })
  | none =>
    ({ db with usageCounters := db.usageCounters ++ [{ deviceId := deviceId, scansUsed := 1 }] },
     { scansUsed := 1, limit := 1 })

/-- getEntitlementByDevice from src/dist/lib/entitlement.js.  The result's
`expiresAt` field is set exactly when a subscription was found and its
currentPeriodEnd is non-null (the JS guard is on a Date object, truthy
whenever present). -/
def getEntitlementByDevice (db : Db) (deviceId : String) (now : Nat) : Db × EntitlementResult :=
  let subscription := findLatest (db.subscriptions.filter (subscriptionMatches deviceId now))
  let p := getOrCreateUsage db deviceId
  (p.1,
   { active := subscription.isSome
     scansUsed := p.2.scansUsed
     limit := 1
     expiresAt :=
       (match subscription with
        | some s => s.currentPeriodEnd
        | none => none) })

/-- canPerformScan from src/dist/lib/entitlement.js.  Denial is the returned
value with canScan false; the function is total, it never raises. -/
def canPerformScan (db : Db) (deviceId : String) (now : Nat) : Db × ScanGateResult :=
  let p := getEntitlementByDevice db deviceId now
  if p.2.active then (p.1, { canScan := true, reason := none })
  else if p.2.scansUsed == 0 then (p.1, { canScan := true, reason := none })
  else (p.1, { canScan := false, reason := some "limit_exceeded" })

/-- Checkout session object fields read by the webhook handler.
metadata_deviceId models session.metadata.deviceId. -/
structure CheckoutSessionObject where
  client_reference_id : Option String
  metadata_deviceId : Option String
  mode : String
  subscription : Option String
  customer : String
deriving DecidableEq

/-- Subscription object fields read by the webhook handler.
priceInterval models subscription.items.data[0].price.recurring.interval. -/
structure StripeSubscriptionObject where
  id : String
  customer : String
  status : String
  priceInterval : Option String
  current_period_end : Option Nat
  cancel_at_period_end : Option Nat
deriving DecidableEq

/-- Invoice object fields read by the webhook handler. -/
structure InvoiceObject where
  subscription : Option String
deriving DecidableEq

/-- The event.data.object payload, shaped by event category. -/
inductive StripeEventData where
  | checkoutSession (session : CheckoutSessionObject)
  | subscriptionObj (sub : StripeSubscriptionObject)
  | invoice (inv : InvoiceObject)
  | other
deriving DecidableEq

/-- A verified Stripe event as seen by the handler after constructEvent. -/
structure StripeEvent where
  id : String
  type : String
  data : StripeEventData
deriving DecidableEq

/-- Plan label derived from the billing interval, as in the webhook handler:
month gives monthly, year gives annual, anything else null. -/
def planFromInterval (interval : Option String) : Option String :=
  match interval with
  | some "month" => some "monthly"
  | some "year" => some "annual"
  | _ => none

/-- Models the JS pattern x ? new Date(x * 1000) : null on a seconds
timestamp (0 is falsy). -/
def msOfSeconds (t : Option Nat) : Option Nat :=
  match t with
  | some n => if n == 0 then none else some (n * 1000)
  | none => none

/-- The OR condition of the DeviceMap findFirst in the
customer.subscription.created/updated case: a row whose key is either
subscription:subId or customer:customerId.  No orderBy is given in the
source, so no precedence between the two keys exists; the model returns
the first matching row in insertion order. -/
def deviceMapMatch (subId customerId : String) (m : DeviceMapRow) : Bool :=
  m.provider == "stripe" &&
    (m.key == "subscription:" ++ subId || m.key == "customer:" ++ customerId)

/-- prisma.subscription.upsert keyed by providerSubscriptionId: update the
existing row's status, plan, period end, cancel-at-period-end and device
link, or create a full row when absent. -/
def upsertSubscription (rows : List SubscriptionRow) (s : StripeSubscriptionObject)
    (dev : String) (now : Nat) : List SubscriptionRow :=
  if rows.any (fun r => r.providerSubscriptionId == s.id) then
    rows.map (fun r =>
      if r.providerSubscriptionId == s.id then
        { r with status := s.status, plan := planFromInterval s.priceInterval,
                 currentPeriodEnd := msOfSeconds s.current_period_end,
                 cancelAtPeriodEnd := msOfSeconds s.cancel_at_period_end,
                 deviceId := dev }
      else r)
  else
    rows ++ [{ provider := "stripe", providerCustomerId := s.customer,
               providerSubscriptionId := s.id, status := s.status,
               plan := planFromInterval s.priceInterval,
               currentPeriodEnd := msOfSeconds s.current_period_end,
               cancelAtPeriodEnd := msOfSeconds s.cancel_at_period_end,
               deviceId := dev, createdAt := now }]

/-- prisma.deviceMap.createMany with skipDuplicates, one row at a time:
skip when a row with the same provider and key already exists. -/
def insertDeviceMapSkipDuplicates (maps : List DeviceMapRow) (row : DeviceMapRow) :
    List DeviceMapRow :=
  if maps.any (fun m => m.provider == row.provider && m.key == row.key) then maps
  else maps ++ [row]

/-- The customer.subscription.created/updated case body of the webhook
switch in src/src/server.ts. -/
def handleSubscriptionUpsert (subs : List SubscriptionRow) (maps : List DeviceMapRow)
    (s : StripeSubscriptionObject) (now : Nat) :
    List SubscriptionRow × List DeviceMapRow :=
  match maps.find? (deviceMapMatch s.id s.customer) with
  | some m => (upsertSubscription subs s m.deviceId now, maps)
  | none => (subs, maps)

/-- The switch statement of the /webhooks/stripe handler in
src/src/server.ts, acting on the two tables it writes (subscriptions and
device maps); all other tables are untouched by every branch. -/
def applyStripeEventCore (subs : List SubscriptionRow) (maps : List DeviceMapRow)
    (event : StripeEvent) (now : Nat) :
    List SubscriptionRow × List DeviceMapRow :=
  match event.type, event.data with
  | "checkout.session.completed", StripeEventData.checkoutSession session =>
    (match (match session.client_reference_id with
            | some d => some d
            | none => session.metadata_deviceId), session.subscription with
     | some dev, some subId =>
       if session.mode == "subscription" then
         let m1 := insertDeviceMapSkipDuplicates maps
           { provider := "stripe", key := "subscription:" ++ subId, deviceId := dev }
         let m2 := insertDeviceMapSkipDuplicates m1
           { provider := "stripe", key := "customer:" ++ session.customer, deviceId := dev }
         (subs, m2)
       else (subs, maps)
     | _, _ => (subs, maps))
  | "customer.subscription.created", StripeEventData.subscriptionObj s =>
    handleSubscriptionUpsert subs maps s now
  | "customer.subscription.updated", StripeEventData.subscriptionObj s =>
    handleSubscriptionUpsert subs maps s now
  | "customer.subscription.deleted", StripeEventData.subscriptionObj s =>
    ((subs.map (fun r =>
        if r.providerSubscriptionId == s.id then { r with status := "canceled" } else r)),
     maps)
  | "invoice.payment_failed", StripeEventData.invoice inv =>
    (match inv.subscription with
     | some sid =>
       ((subs.map (fun r =>
           if r.providerSubscriptionId == sid then { r with status := "past_due" } else r)),
        maps)
     | none => (subs, maps))
  | "invoice.paid", StripeEventData.invoice inv =>
    (match inv.subscription with
     | some sid =>
       ((subs.map (fun r =>
           if r.providerSubscriptionId == sid && r.status == "past_due" then
             { r with status := "active" }
           else r)),
        maps)
     | none => (subs, maps))
  | _, _ => (subs, maps)

/-- State transition of one webhook event on the whole store. -/
def applyStripeEvent (db : Db) (event : StripeEvent) (now : Nat) : Db :=
  let p := applyStripeEventCore db.subscriptions db.deviceMaps event now
  { db with subscriptions := p.1, deviceMaps := p.2 }

/-- HTTP outcome of a handler, as seen by the provider. -/
structure HandlerResult where
  statusCode : Nat
  body : String
deriving DecidableEq

/-- prisma.webhookEvent.create storing the idempotency ledger row. -/
def recordEvent (db : Db) (eventId provider ty : String) : Db :=
  { db with webhookEvents := db.webhookEvents ++ [{ id := eventId, provider := provider, type := ty }] }

/-- Skeleton of the /webhooks/stripe handler after signature verification:
look up the ledger by event id, short-circuit with 200 when present;
otherwise persist the ledger row first, then run the state transition
inside try/catch — on failure the ledger row stays and 200 is still
returned (the catch block only logs). -/
def ingestEventWith (db : Db) (eventId provider ty : String)
    (applyFn : Db → Except String Db) : Db × HandlerResult :=
  match db.webhookEvents.find? (fun w => w.id == eventId) with
  | some _ => (db, { statusCode := 200, body := "ok" })
  | none =>
    let db1 := recordEvent db eventId provider ty
    match applyFn db1 with
    | Except.ok db2 => (db2, { statusCode := 200, body := "ok" })
    | Except.error _ => (db1, { statusCode := 200, body := "ok" })

/-- The concrete Stripe ingestion: the switch never fails in the model. -/
def ingestStripeEvent (db : Db) (event : StripeEvent) (now : Nat) : Db × HandlerResult :=
  ingestEventWith db event.id "stripe" event.type
    (fun d => Except.ok (applyStripeEvent d event now))

/-- Observable steps of the POST /api/scan handler, in execution order. -/
inductive ScanEvent where
  | gateCheck
  | increment
  | scanAttempt
deriving DecidableEq

/-- doScan from src/src/server.ts: 400 when no image file was uploaded,
otherwise the vision call, whose outcome is the visionResult parameter
(none models a thrown error or an empty completion, both ending in the
catch block's 500). -/
def doScan (hasFile : Bool) (visionResult : Option String) : HandlerResult :=
  if !hasFile then { statusCode := 400, body := "No image provided" }
  else
    match visionResult with
    | some msg => { statusCode := 200, body := msg }
    | none => { statusCode := 500, body := "Internal server error" }

/-- The POST /api/scan handler from src/src/server.ts: gate check, 402 on
denial; otherwise a second entitlement resolution, then — for a
non-subscribed device — the usage increment, and only then doScan.  The
middle component is the trace of observable steps in execution order. -/
def scanHandler (db : Db) (deviceId : String) (now : Nat)
    (hasFile : Bool) (visionResult : Option String) :
    Db × List ScanEvent × HandlerResult :=
  let g := canPerformScan db deviceId now
  if g.2.canScan then
    let e := getEntitlementByDevice g.1 deviceId now
    if e.2.active then
      (e.1, [ScanEvent.gateCheck, ScanEvent.scanAttempt], doScan hasFile visionResult)
    else
      let i := incrementScanUsage e.1 deviceId
      (i.1, [ScanEvent.gateCheck, ScanEvent.increment, ScanEvent.scanAttempt],
       doScan hasFile visionResult)
  else
    (g.1, [ScanEvent.gateCheck], { statusCode := 402, body := "requirePaywall" })

/-! ## Helper lemmas on the list model -/

theorem find_append_of_none {α : Type} (p : α → Bool) (l1 l2 : List α)
    (h : l1.find? p = none) : (l1 ++ l2).find? p = l2.find? p := by
  induction l1 with
  | nil => rfl
  | cons a t ih =>
    cases ha : p a with
    | true => simp [List.find?_cons, ha] at h
    | false =>
      simp only [List.find?_cons, ha] at h
      simpa [List.find?_cons, ha] using ih h

theorem filter_eq_nil_of_find_none {α : Type} (p : α → Bool) (l : List α)
    (h : l.find? p = none) : l.filter p = [] := by
  induction l with
  | nil => rfl
  | cons a t ih =>
    cases ha : p a with
    | true => simp [List.find?_cons, ha] at h
    | false =>
      simp only [List.find?_cons, ha] at h
      simpa [List.filter_cons, ha] using ih h

theorem map_eq_self_of_mem {α : Type} (f : α → α) (l : List α)
    (h : ∀ a ∈ l, f a = a) : l.map f = l := by
  induction l with
  | nil => rfl
  | cons a t ih =>
    simp only [List.map_cons]
    rw [h a (by simp), ih (fun b hb => h b (by simp [hb]))]

theorem filter_isEmpty_eq_not_any {α : Type} (p : α → Bool) (l : List α) :
    (l.filter p).isEmpty = !l.any p := by
  induction l with
  | nil => rfl
  | cons a t ih => cases ha : p a <;> simp [List.filter_cons, ha, List.any_cons, ih]

theorem findLatest_eq_none_iff (l : List SubscriptionRow) :
    findLatest l = none ↔ l = [] := by
  cases l with
  | nil => simp [findLatest]
  | cons r rs =>
    simp only [findLatest]
    cases hrec : findLatest rs with
    | none => simp
    | some b => simp only []; split <;> simp

theorem findLatest_isSome_eq (l : List SubscriptionRow) :
    (findLatest l).isSome = !l.isEmpty := by
  cases l with
  | nil => rfl
  | cons r rs =>
    simp only [findLatest, List.isEmpty_cons, Bool.not_false]
    cases hrec : findLatest rs with
    | none => rfl
    | some b => simp only []; split <;> rfl

theorem findLatest_mem (l : List SubscriptionRow) (s : SubscriptionRow)
    (h : findLatest l = some s) : s ∈ l := by
  induction l with
  | nil => simp [findLatest] at h
  | cons r rs ih =>
    simp only [findLatest] at h
    cases hrec : findLatest rs with
    | none =>
      rw [hrec] at h
      simp only [Option.some.injEq] at h
      simp [← h]
    | some b =>
      simp only [hrec] at h
      by_cases hc : b.createdAt > r.createdAt
      · rw [if_pos hc] at h
        simp only [Option.some.injEq] at h
        exact List.mem_cons_of_mem r (ih (h ▸ hrec))
      · rw [if_neg hc] at h
        simp only [Option.some.injEq] at h
        simp [← h]

theorem findLatest_max (l : List SubscriptionRow) :
    ∀ (s : SubscriptionRow), findLatest l = some s →
      ∀ t ∈ l, t.createdAt ≤ s.createdAt := by
  induction l with
  | nil => intro s h; simp [findLatest] at h
  | cons r rs ih =>
    intro s h t ht
    simp only [findLatest] at h
    cases hrec : findLatest rs with
    | none =>
      simp only [hrec, Option.some.injEq] at h
      have hrs : rs = [] := (findLatest_eq_none_iff rs).mp hrec
      subst hrs
      simp only [List.mem_singleton] at ht
      simp [ht, ← h]
    | some b =>
      simp only [hrec] at h
      rcases List.mem_cons.mp ht with hteq | htmem
      · subst hteq
        by_cases hc : b.createdAt > t.createdAt
        · rw [if_pos hc] at h
          simp only [Option.some.injEq] at h
          exact le_of_lt (h ▸ hc)
        · rw [if_neg hc] at h
          simp only [Option.some.injEq] at h
          simp [← h]
      · have hb := ih b hrec t htmem
        by_cases hc : b.createdAt > r.createdAt
        · rw [if_pos hc] at h
          simp only [Option.some.injEq] at h
          exact h ▸ hb
        · rw [if_neg hc] at h
          simp only [Option.some.injEq] at h
          rw [← h]
          exact le_trans hb (le_of_not_lt hc)

/-! ## Claim theorems -/

/-- C1: for every device id, canPerformScan returns canScan true when the
resolved entitlement is active; otherwise canScan true when scansUsed is 0;
otherwise canScan false with reason limit_exceeded.  The deny case is the
returned value of a total function, never a raised exception. -/
theorem canPerformScan_cases (db : Db) (deviceId : String) (now : Nat) :
    ((getEntitlementByDevice db deviceId now).2.active = true →
      (canPerformScan db deviceId now).2 = { canScan := true, reason := none }) ∧
    ((getEntitlementByDevice db deviceId now).2.active = false →
      (getEntitlementByDevice db deviceId now).2.scansUsed = 0 →
      (canPerformScan db deviceId now).2 = { canScan := true, reason := none }) ∧
    ((getEntitlementByDevice db deviceId now).2.active = false →
      (getEntitlementByDevice db deviceId now).2.scansUsed ≠ 0 →
      (canPerformScan db deviceId now).2 =
        { canScan := false, reason := some "limit_exceeded" }) := by
  refine ⟨fun hA => ?_, fun hA h0 => ?_, fun hA h0 => ?_⟩
  · simp [canPerformScan, hA]
  · simp [canPerformScan, hA, h0]
  · simp [canPerformScan, hA, h0]

/-- C1 witness: a fresh device with no subscription and no usage row is
allowed through the free-scan branch. -/
theorem canPerformScan_cases_witness :
    (canPerformScan { subscriptions := [], usageCounters := [], webhookEvents := [], deviceMaps := [] } "dev-1" 0).2 =
      { canScan := true, reason := none } :=
  (canPerformScan_cases { subscriptions := [], usageCounters := [], webhookEvents := [], deviceMaps := [] } "dev-1" 0).2.1
    (by decide) (by decide)

/-- C2: getEntitlementByDevice returns active true iff a Subscription row
for that device exists with status active or trialing and currentPeriodEnd
strictly after now; the limit is fixed at 1; expiresAt is present iff such
a subscription was found and equals the period-end of the chosen
subscription, which is the most recent matching row by creation time. -/
theorem getEntitlementByDevice_spec (db : Db) (deviceId : String) (now : Nat) :
    ((getEntitlementByDevice db deviceId now).2.active =
      db.subscriptions.any (subscriptionMatches deviceId now)) ∧
    (getEntitlementByDevice db deviceId now).2.limit = 1 ∧
    (db.subscriptions.filter (subscriptionMatches deviceId now) = [] →
      (getEntitlementByDevice db deviceId now).2.expiresAt = none) ∧
    (∀ s : SubscriptionRow,
      findLatest (db.subscriptions.filter (subscriptionMatches deviceId now)) = some s →
      (getEntitlementByDevice db deviceId now).2.expiresAt = s.currentPeriodEnd ∧
      ((getEntitlementByDevice db deviceId now).2.expiresAt).isSome = true ∧
      s ∈ db.subscriptions ∧ subscriptionMatches deviceId now s = true ∧
      (∀ t ∈ db.subscriptions, subscriptionMatches deviceId now t = true →
        t.createdAt ≤ s.createdAt)) := by
  refine ⟨?_, ?_, ?_, ?_⟩
  · simp only [getEntitlementByDevice]
    rw [findLatest_isSome_eq, filter_isEmpty_eq_not_any, Bool.not_not]
  · simp [getEntitlementByDevice]
  · intro hnil
    simp [getEntitlementByDevice, hnil, findLatest]
  · intro s hs
    have hmem := findLatest_mem _ _ hs
    have hsp := List.mem_filter.mp hmem
    have hexp : (getEntitlementByDevice db deviceId now).2.expiresAt = s.currentPeriodEnd := by
      simp [getEntitlementByDevice, hs]
    refine ⟨hexp, ?_, hsp.1, hsp.2, ?_⟩
    · rw [hexp]
      have hp := hsp.2
      simp only [subscriptionMatches, Bool.and_eq_true] at hp
      cases hcpe : s.currentPeriodEnd with
      | none => rw [hcpe] at hp; simp at hp
      | some t => simp
    · intro t htmem htp
      exact findLatest_max _ s hs t (List.mem_filter.mpr ⟨htmem, htp⟩)

/-- C2 witness: one matching subscription row gives active true with
expiresAt equal to its period-end. -/
theorem getEntitlementByDevice_spec_witness :
    (getEntitlementByDevice
      { subscriptions := [{ provider := "stripe", providerCustomerId := "cus1", providerSubscriptionId := "sub1", status := "active", plan := some "monthly", currentPeriodEnd := some 1000, cancelAtPeriodEnd := none, deviceId := "dev-1", createdAt := 5 }], usageCounters := [], webhookEvents := [], deviceMaps := [] }
      "dev-1" 0).2.expiresAt = some 1000 :=
  ((getEntitlementByDevice_spec
      { subscriptions := [{ provider := "stripe", providerCustomerId := "cus1", providerSubscriptionId := "sub1", status := "active", plan := some "monthly", currentPeriodEnd := some 1000, cancelAtPeriodEnd := none, deviceId := "dev-1", createdAt := 5 }], usageCounters := [], webhookEvents := [], deviceMaps := [] }
      "dev-1" 0).2.2.2
    { provider := "stripe", providerCustomerId := "cus1", providerSubscriptionId := "sub1", status := "active", plan := some "monthly", currentPeriodEnd := some 1000, cancelAtPeriodEnd := none, deviceId := "dev-1", createdAt := 5 }
    (by decide)).1

/-- applyStripeEvent only writes the subscriptions and deviceMaps tables. -/
theorem applyStripeEvent_frame (db : Db) (e : StripeEvent) (now : Nat) :
    (applyStripeEvent db e now).webhookEvents = db.webhookEvents ∧
    (applyStripeEvent db e now).usageCounters = db.usageCounters :=
  ⟨rfl, rfl⟩

/-- Ingestion short-circuits with 200 when a ledger row for the event id
already exists. -/
theorem ingestStripeEvent_dup (db : Db) (e : StripeEvent) (now : Nat) (w : WebhookEventRow)
    (hf : db.webhookEvents.find? (fun v => v.id == e.id) = some w) :
    ingestStripeEvent db e now = (db, { statusCode := 200, body := "ok" }) := by
  simp [ingestStripeEvent, ingestEventWith, hf]

/-- C4: resolveEntitlement (getEntitlementByDevice) and its lazy
getOrCreateUsage are idempotent: for a brand-new device the first call
creates exactly one UsageCounter row at 0, and a second call leaves the
store unchanged and still reports 0. -/
theorem resolveEntitlement_idempotent_usage (db : Db) (deviceId : String) (now now2 : Nat)
    (hfresh : db.usageCounters.find? (fun u => u.deviceId == deviceId) = none) :
    ((getEntitlementByDevice (getEntitlementByDevice db deviceId now).1 deviceId now2).1 =
      (getEntitlementByDevice db deviceId now).1) ∧
    ((getEntitlementByDevice db deviceId now).1.usageCounters.filter
        (fun u => u.deviceId == deviceId) = [{ deviceId := deviceId, scansUsed := 0 }]) ∧
    (getEntitlementByDevice (getEntitlementByDevice db deviceId now).1 deviceId now2).2.scansUsed = 0 ∧
    (getEntitlementByDevice db deviceId now).2.scansUsed = 0 := by
  have h1 : getOrCreateUsage db deviceId =
      ({ db with usageCounters := db.usageCounters ++ [{ deviceId := deviceId, scansUsed := 0 }] },
       { scansUsed := 0, limit := 1 }) := by
    simp [getOrCreateUsage, hfresh]
  have hdb1 : (getEntitlementByDevice db deviceId now).1 =
      { db with usageCounters := db.usageCounters ++ [{ deviceId := deviceId, scansUsed := 0 }] } := by
    show (getOrCreateUsage db deviceId).1 = _
    rw [h1]
  have hfind1 : (db.usageCounters ++
        ([{ deviceId := deviceId, scansUsed := 0 }] : List UsageCounterRow)).find?
      (fun u => u.deviceId == deviceId) =
      some { deviceId := deviceId, scansUsed := 0 } := by
    rw [find_append_of_none _ _ _ hfresh]
    simp [List.find?]
  have h2 : getOrCreateUsage
      ({ db with usageCounters := db.usageCounters ++ [{ deviceId := deviceId, scansUsed := 0 }] } : Db)
      deviceId =
      ({ db with usageCounters := db.usageCounters ++ [{ deviceId := deviceId, scansUsed := 0 }] },
       { scansUsed := 0, limit := 1 }) := by
    unfold getOrCreateUsage
    rw [show ({ db with usageCounters := db.usageCounters ++ [{ deviceId := deviceId, scansUsed := 0 }] } : Db).usageCounters = db.usageCounters ++ [{ deviceId := deviceId, scansUsed := 0 }] from rfl, hfind1]
  refine ⟨?_, ?_, ?_, ?_⟩
  · rw [hdb1]
    show (getOrCreateUsage _ deviceId).1 = _
    rw [h2]
  · rw [hdb1]
    show (db.usageCounters ++ ([{ deviceId := deviceId, scansUsed := 0 }] : List UsageCounterRow)).filter
        (fun u => u.deviceId == deviceId) = _
    rw [List.filter_append, filter_eq_nil_of_find_none _ _ hfresh]
    simp [List.filter]
  · rw [hdb1]
    show (getOrCreateUsage _ deviceId).2.scansUsed = 0
    rw [h2]
  · show (getOrCreateUsage db deviceId).2.scansUsed = 0
    rw [h1]

/-- C4 witness: two successive entitlement resolutions for a brand-new
device leave exactly one usage row holding 0. -/
theorem resolveEntitlement_idempotent_usage_witness :
    (getEntitlementByDevice { subscriptions := [], usageCounters := [], webhookEvents := [], deviceMaps := [] } "dev-1" 0).1.usageCounters.filter
      (fun u => u.deviceId == "dev-1") = [{ deviceId := "dev-1", scansUsed := 0 }] :=
  (resolveEntitlement_idempotent_usage
    { subscriptions := [], usageCounters := [], webhookEvents := [], deviceMaps := [] }
    "dev-1" 0 0 (by decide)).2.1

/-- C3: ingesting a fresh event persists the ledger row first and then runs
the state transition on the store already containing that row; the ledger
then holds exactly one row for the event id, and delivering the same event
id again changes nothing and acknowledges with 200, so the business effect
is applied exactly once. -/
theorem ingestStripeEvent_idempotent (db : Db) (e : StripeEvent) (now : Nat)
    (hfresh : db.webhookEvents.find? (fun w => w.id == e.id) = none) :
    ((ingestStripeEvent db e now).1 =
      applyStripeEvent (recordEvent db e.id "stripe" e.type) e now) ∧
    ((ingestStripeEvent db e now).1.webhookEvents.filter (fun w => w.id == e.id) =
      [{ id := e.id, provider := "stripe", type := e.type }]) ∧
    (ingestStripeEvent (ingestStripeEvent db e now).1 e now =
      ((ingestStripeEvent db e now).1, { statusCode := 200, body := "ok" })) := by
  have h1 : ingestStripeEvent db e now =
      (applyStripeEvent (recordEvent db e.id "stripe" e.type) e now,
       { statusCode := 200, body := "ok" }) := by
    simp [ingestStripeEvent, ingestEventWith, hfresh]
  have hweb : (ingestStripeEvent db e now).1.webhookEvents =
      db.webhookEvents ++ ([{ id := e.id, provider := "stripe", type := e.type }] : List WebhookEventRow) := by
    rw [h1]
    exact (applyStripeEvent_frame _ _ _).1
  have hfilter : (ingestStripeEvent db e now).1.webhookEvents.filter (fun w => w.id == e.id) =
      ([{ id := e.id, provider := "stripe", type := e.type }] : List WebhookEventRow) := by
    rw [hweb, List.filter_append, filter_eq_nil_of_find_none _ _ hfresh]
    simp [List.filter]
  have hfind : (ingestStripeEvent db e now).1.webhookEvents.find? (fun v => v.id == e.id) =
      some { id := e.id, provider := "stripe", type := e.type } := by
    rw [hweb, find_append_of_none _ _ _ hfresh]
    simp [List.find?]
  exact ⟨congrArg Prod.fst h1, hfilter, ingestStripeEvent_dup _ e now _ hfind⟩

/-- C3 witness: a concrete fresh invoice.paid event ingested twice leaves
exactly one ledger row. -/
theorem ingestStripeEvent_idempotent_witness :
    (ingestStripeEvent { subscriptions := [], usageCounters := [], webhookEvents := [], deviceMaps := [] }
      { id := "evt1", type := "invoice.paid", data := StripeEventData.invoice { subscription := some "sub1" } } 0).1.webhookEvents.filter
      (fun w => w.id == "evt1") =
      [{ id := "evt1", provider := "stripe", type := "invoice.paid" }] :=
  (ingestStripeEvent_idempotent
    { subscriptions := [], usageCounters := [], webhookEvents := [], deviceMaps := [] }
    { id := "evt1", type := "invoice.paid", data := StripeEventData.invoice { subscription := some "sub1" } }
    0 (by decide)).2.1

/-- C8: when the state-transition step fails after the event has been
recorded, the ledger row remains persisted, the error is contained in the
handler, and the delivery is still acknowledged with status 200. -/
theorem ingest_apply_failure_contained (db : Db) (eventId provider ty msg : String)
    (applyFn : Db → Except String Db)
    (hfresh : db.webhookEvents.find? (fun w => w.id == eventId) = none)
    (hfail : applyFn (recordEvent db eventId provider ty) = Except.error msg) :
    (ingestEventWith db eventId provider ty applyFn =
      (recordEvent db eventId provider ty, { statusCode := 200, body := "ok" })) ∧
    ((ingestEventWith db eventId provider ty applyFn).1.webhookEvents.filter
      (fun w => w.id == eventId) = [{ id := eventId, provider := provider, type := ty }]) := by
  have h1 : ingestEventWith db eventId provider ty applyFn =
      (recordEvent db eventId provider ty, { statusCode := 200, body := "ok" }) := by
    simp [ingestEventWith, hfresh, hfail]
  refine ⟨h1, ?_⟩
  rw [h1]
  show (db.webhookEvents ++ ([{ id := eventId, provider := provider, type := ty }] : List WebhookEventRow)).filter
      (fun w => w.id == eventId) = _
  rw [List.filter_append, filter_eq_nil_of_find_none _ _ hfresh]
  simp [List.filter]

/-- C8 witness: a transition that always fails still leaves the ledger row
and a 200 acknowledgement. -/
theorem ingest_apply_failure_contained_witness :
    ingestEventWith { subscriptions := [], usageCounters := [], webhookEvents := [], deviceMaps := [] }
      "evt1" "stripe" "invoice.paid" (fun _ => Except.error "boom") =
      (recordEvent { subscriptions := [], usageCounters := [], webhookEvents := [], deviceMaps := [] }
        "evt1" "stripe" "invoice.paid", { statusCode := 200, body := "ok" }) :=
  (ingest_apply_failure_contained
    { subscriptions := [], usageCounters := [], webhookEvents := [], deviceMaps := [] }
    "evt1" "stripe" "invoice.paid" "boom" (fun _ => Except.error "boom")
    (by decide) rfl).1

/-- C6: invoice.payment_failed sets the matching subscription rows to
past_due; invoice.paid sets a row back to active exactly when its status is
past_due and is a no-op otherwise; hence payment_failed followed by paid
drives an active row through past_due back to active, and a canceled row is
never revived by invoice.paid. -/
theorem invoice_events_spec (db : Db) (now : Nat) (idF idP sid : String) :
    ((applyStripeEvent db { id := idF, type := "invoice.payment_failed", data := StripeEventData.invoice { subscription := some sid } } now).subscriptions =
      db.subscriptions.map (fun r =>
        if r.providerSubscriptionId == sid then { r with status := "past_due" } else r)) ∧
    ((applyStripeEvent db { id := idP, type := "invoice.paid", data := StripeEventData.invoice { subscription := some sid } } now).subscriptions =
      db.subscriptions.map (fun r =>
        if r.providerSubscriptionId == sid && r.status == "past_due" then { r with status := "active" } else r)) ∧
    (∀ r ∈ db.subscriptions, r.providerSubscriptionId = sid → r.status = "active" →
      ({ r with status := "past_due" } ∈
        (applyStripeEvent db { id := idF, type := "invoice.payment_failed", data := StripeEventData.invoice { subscription := some sid } } now).subscriptions ∧
       { r with status := "active" } ∈
        (applyStripeEvent
          (applyStripeEvent db { id := idF, type := "invoice.payment_failed", data := StripeEventData.invoice { subscription := some sid } } now)
          { id := idP, type := "invoice.paid", data := StripeEventData.invoice { subscription := some sid } } now).subscriptions)) ∧
    (∀ r ∈ db.subscriptions, r.status = "canceled" →
      r ∈ (applyStripeEvent db { id := idP, type := "invoice.paid", data := StripeEventData.invoice { subscription := some sid } } now).subscriptions) := by
  have hF : ∀ d : Db,
      (applyStripeEvent d { id := idF, type := "invoice.payment_failed", data := StripeEventData.invoice { subscription := some sid } } now).subscriptions =
        d.subscriptions.map (fun r =>
          if r.providerSubscriptionId == sid then { r with status := "past_due" } else r) :=
    fun _ => rfl
  have hP : ∀ d : Db,
      (applyStripeEvent d { id := idP, type := "invoice.paid", data := StripeEventData.invoice { subscription := some sid } } now).subscriptions =
        d.subscriptions.map (fun r =>
          if r.providerSubscriptionId == sid && r.status == "past_due" then { r with status := "active" } else r) :=
    fun _ => rfl
  refine ⟨hF db, hP db, ?_, ?_⟩
  · intro r hr hid hst
    have hbeq : (r.providerSubscriptionId == sid) = true := by simp [hid]
    have hfr : (fun x =>
        if x.providerSubscriptionId == sid then { x with status := "past_due" } else x) r =
        { r with status := "past_due" } := by
      simp [hbeq]
    have hmem1 : ({ r with status := "past_due" } : SubscriptionRow) ∈
        (applyStripeEvent db { id := idF, type := "invoice.payment_failed", data := StripeEventData.invoice { subscription := some sid } } now).subscriptions := by
      rw [hF db]
      exact hfr ▸ List.mem_map_of_mem _ hr
    refine ⟨hmem1, ?_⟩
    have hgr : (fun x =>
        if x.providerSubscriptionId == sid && x.status == "past_due" then { x with status := "active" } else x)
        ({ r with status := "past_due" } : SubscriptionRow) = { r with status := "active" } := by
      simp [hbeq]
    rw [hP]
    exact hgr ▸ List.mem_map_of_mem _ hmem1
  · intro r hr hst
    have hb : (r.status == "past_due") = false := by
      rw [hst]
      rfl
    have hgr : (fun x =>
        if x.providerSubscriptionId == sid && x.status == "past_due" then { x with status := "active" } else x) r = r := by
      simp [hb]
    rw [hP db]
    exact hgr ▸ List.mem_map_of_mem _ hr

/-- C6 witness: a concrete active subscription cycles active, past_due,
active under payment_failed then paid. -/
theorem invoice_events_spec_witness :
    ({ provider := "stripe", providerCustomerId := "cus1", providerSubscriptionId := "sub1", status := "active", plan := some "monthly", currentPeriodEnd := some 1000, cancelAtPeriodEnd := none, deviceId := "dev-1", createdAt := 5 } : SubscriptionRow) ∈
      (applyStripeEvent
        (applyStripeEvent
          { subscriptions := [{ provider := "stripe", providerCustomerId := "cus1", providerSubscriptionId := "sub1", status := "active", plan := some "monthly", currentPeriodEnd := some 1000, cancelAtPeriodEnd := none, deviceId := "dev-1", createdAt := 5 }], usageCounters := [], webhookEvents := [], deviceMaps := [] }
          { id := "evtF", type := "invoice.payment_failed", data := StripeEventData.invoice { subscription := some "sub1" } } 0)
        { id := "evtP", type := "invoice.paid", data := StripeEventData.invoice { subscription := some "sub1" } } 0).subscriptions :=
  ((invoice_events_spec
      { subscriptions := [{ provider := "stripe", providerCustomerId := "cus1", providerSubscriptionId := "sub1", status := "active", plan := some "monthly", currentPeriodEnd := some 1000, cancelAtPeriodEnd := none, deviceId := "dev-1", createdAt := 5 }], usageCounters := [], webhookEvents := [], deviceMaps := [] }
      0 "evtF" "evtP" "sub1").2.2.1
    { provider := "stripe", providerCustomerId := "cus1", providerSubscriptionId := "sub1", status := "active", plan := some "monthly", currentPeriodEnd := some 1000, cancelAtPeriodEnd := none, deviceId := "dev-1", createdAt := 5 }
    (by decide) rfl rfl).2

/-- C9: customer.subscription.deleted rewrites the rows matching the
provider subscription id to status canceled, keeping every row in the store
(the length is preserved, nothing is deleted) and leaving every other field
of the rewritten rows, and every other row and table, unchanged. -/
theorem subscription_deleted_spec (db : Db) (now : Nat) (eid : String)
    (s : StripeSubscriptionObject) :
    ((applyStripeEvent db { id := eid, type := "customer.subscription.deleted", data := StripeEventData.subscriptionObj s } now).subscriptions =
      db.subscriptions.map (fun r =>
        if r.providerSubscriptionId == s.id then { r with status := "canceled" } else r)) ∧
    ((applyStripeEvent db { id := eid, type := "customer.subscription.deleted", data := StripeEventData.subscriptionObj s } now).subscriptions.length =
      db.subscriptions.length) ∧
    (∀ r ∈ db.subscriptions, r.providerSubscriptionId = s.id →
      ({ r with status := "canceled" } ∈
        (applyStripeEvent db { id := eid, type := "customer.subscription.deleted", data := StripeEventData.subscriptionObj s } now).subscriptions)) ∧
    (∀ r ∈ db.subscriptions, r.providerSubscriptionId ≠ s.id →
      r ∈ (applyStripeEvent db { id := eid, type := "customer.subscription.deleted", data := StripeEventData.subscriptionObj s } now).subscriptions) ∧
    ((applyStripeEvent db { id := eid, type := "customer.subscription.deleted", data := StripeEventData.subscriptionObj s } now).usageCounters = db.usageCounters) ∧
    ((applyStripeEvent db { id := eid, type := "customer.subscription.deleted", data := StripeEventData.subscriptionObj s } now).webhookEvents = db.webhookEvents) ∧
    ((applyStripeEvent db { id := eid, type := "customer.subscription.deleted", data := StripeEventData.subscriptionObj s } now).deviceMaps = db.deviceMaps) := by
  have hD : (applyStripeEvent db { id := eid, type := "customer.subscription.deleted", data := StripeEventData.subscriptionObj s } now).subscriptions =
      db.subscriptions.map (fun r =>
        if r.providerSubscriptionId == s.id then { r with status := "canceled" } else r) := rfl
  refine ⟨hD, ?_, ?_, ?_, rfl, rfl, rfl⟩
  · rw [hD, List.length_map]
  · intro r hr hid
    have hbeq : (r.providerSubscriptionId == s.id) = true := by simp [hid]
    have hfr : (fun x =>
        if x.providerSubscriptionId == s.id then { x with status := "canceled" } else x) r =
        { r with status := "canceled" } := by
      simp [hbeq]
    rw [hD]
    exact hfr ▸ List.mem_map_of_mem _ hr
  · intro r hr hid
    have hbeq : (r.providerSubscriptionId == s.id) = false := by
      simp [hid]
    have hfr : (fun x =>
        if x.providerSubscriptionId == s.id then { x with status := "canceled" } else x) r = r := by
      simp [hbeq]
    rw [hD]
    exact hfr ▸ List.mem_map_of_mem _ hr

/-- C9 witness: a concrete deleted event cancels the matching row while the
row itself (all other fields intact) stays in the store. -/
theorem subscription_deleted_spec_witness :
    ({ provider := "stripe", providerCustomerId := "cus1", providerSubscriptionId := "sub1", status := "canceled", plan := some "monthly", currentPeriodEnd := some 1000, cancelAtPeriodEnd := none, deviceId := "dev-1", createdAt := 5 } : SubscriptionRow) ∈
      (applyStripeEvent
        { subscriptions := [{ provider := "stripe", providerCustomerId := "cus1", providerSubscriptionId := "sub1", status := "active", plan := some "monthly", currentPeriodEnd := some 1000, cancelAtPeriodEnd := none, deviceId := "dev-1", createdAt := 5 }], usageCounters := [], webhookEvents := [], deviceMaps := [] }
        { id := "evtD", type := "customer.subscription.deleted", data := StripeEventData.subscriptionObj { id := "sub1", customer := "cus1", status := "canceled", priceInterval := none, current_period_end := none, cancel_at_period_end := none } } 0).subscriptions :=
  (subscription_deleted_spec
      { subscriptions := [{ provider := "stripe", providerCustomerId := "cus1", providerSubscriptionId := "sub1", status := "active", plan := some "monthly", currentPeriodEnd := some 1000, cancelAtPeriodEnd := none, deviceId := "dev-1", createdAt := 5 }], usageCounters := [], webhookEvents := [], deviceMaps := [] }
      0 "evtD"
      { id := "sub1", customer := "cus1", status := "canceled", priceInterval := none, current_period_end := none, cancel_at_period_end := none }).2.2.1
    { provider := "stripe", providerCustomerId := "cus1", providerSubscriptionId := "sub1", status := "active", plan := some "monthly", currentPeriodEnd := some 1000, cancelAtPeriodEnd := none, deviceId := "dev-1", createdAt := 5 }
    (by decide) rfl

/-- Store for the C7 counterexample: a customer-key mapping to devB stored
before a subscription-key mapping to devA. -/
def dbC7 : Db :=
  { subscriptions := [], usageCounters := [], webhookEvents := [],
    deviceMaps := [{ provider := "stripe", key := "customer:cus1", deviceId := "devB" }, { provider := "stripe", key := "subscription:sub1", deviceId := "devA" }] }

/-- Event for the C7 counterexample: an active monthly subscription update
whose subscription id and customer id both have mappings, to different
devices. -/
def evC7 : StripeEvent :=
  { id := "evt1", type := "customer.subscription.updated",
    data := StripeEventData.subscriptionObj { id := "sub1", customer := "cus1", status := "active", priceInterval := some "month", current_period_end := some 2000000000, cancel_at_period_end := none } }

/-- C7 counterexample: a DeviceMap row maps subscription:sub1 to devA, yet
the handler links the upserted Subscription row to devB, the device of the
customer mapping that happens to come first — the single findFirst over an
OR of the two keys gives the subscription id no precedence. -/
theorem subscription_upsert_lookup_counterexample :
    (dbC7.deviceMaps.find? (fun m => m.provider == "stripe" && m.key == "subscription:sub1") =
      some { provider := "stripe", key := "subscription:sub1", deviceId := "devA" }) ∧
    ((applyStripeEvent dbC7 evC7 0).subscriptions.map (fun r => r.deviceId) = ["devB"]) ∧
    ¬ ((applyStripeEvent dbC7 evC7 0).subscriptions.map (fun r => r.deviceId) = ["devA"]) := by
  decide

/-- Content of the subscription upsert: every row keyed by the event's
subscription id carries the event's status, derived plan, period end,
cancel-at-period-end and device link, and at least one such row exists. -/
theorem upsertSubscription_fields (rows : List SubscriptionRow) (s : StripeSubscriptionObject)
    (dev : String) (now : Nat) :
    (∀ r ∈ upsertSubscription rows s dev now, r.providerSubscriptionId = s.id →
      r.status = s.status ∧ r.plan = planFromInterval s.priceInterval ∧
      r.currentPeriodEnd = msOfSeconds s.current_period_end ∧
      r.cancelAtPeriodEnd = msOfSeconds s.cancel_at_period_end ∧
      r.deviceId = dev) ∧
    (∃ r ∈ upsertSubscription rows s dev now, r.providerSubscriptionId = s.id) := by
  unfold upsertSubscription
  by_cases hany : rows.any (fun r => r.providerSubscriptionId == s.id) = true
  · rw [if_pos hany]
    constructor
    · intro r hr hid
      rcases List.mem_map.mp hr with ⟨t, ht, hft⟩
      by_cases hb : (t.providerSubscriptionId == s.id) = true
      · rw [if_pos hb] at hft
        rw [← hft]
        simp
      · rw [if_neg hb] at hft
        subst hft
        exact absurd (by simp [hid]) hb
    · rcases List.any_eq_true.mp hany with ⟨t, ht, hb⟩
      refine ⟨_, List.mem_map_of_mem _ ht, ?_⟩
      rw [if_pos hb]
      show t.providerSubscriptionId = s.id
      exact eq_of_beq hb
  · rw [if_neg hany]
    constructor
    · intro r hr hid
      rcases List.mem_append.mp hr with hl | hr2
      · exact absurd (List.any_eq_true.mpr ⟨r, hl, by simp [hid]⟩) hany
      · simp only [List.mem_singleton] at hr2
        subst hr2
        simp
    · exact ⟨{ provider := "stripe", providerCustomerId := s.customer, providerSubscriptionId := s.id, status := s.status, plan := planFromInterval s.priceInterval, currentPeriodEnd := msOfSeconds s.current_period_end, cancelAtPeriodEnd := msOfSeconds s.cancel_at_period_end, deviceId := dev, createdAt := now },
        List.mem_append.mpr (Or.inr (by simp)), rfl⟩

/-- C7 amended: a customer.subscription.created/updated event resolves the
device from the first DeviceMap row whose key matches either
subscription:id or customer:id — with no precedence between the two keys;
when no mapping matches, the event is skipped and the store is unchanged;
otherwise the Subscription row keyed by the provider subscription id is
upserted with the event's status, the plan derived from the billing
interval, period-end, cancel-at-period-end, and a link to the matched
row's device. -/
theorem subscription_upsert_spec (db : Db) (now : Nat) (eid ty : String)
    (s : StripeSubscriptionObject)
    (hty : ty = "customer.subscription.created" ∨ ty = "customer.subscription.updated") :
    (db.deviceMaps.find? (deviceMapMatch s.id s.customer) = none →
      applyStripeEvent db { id := eid, type := ty, data := StripeEventData.subscriptionObj s } now = db) ∧
    (∀ m : DeviceMapRow, db.deviceMaps.find? (deviceMapMatch s.id s.customer) = some m →
      ((applyStripeEvent db { id := eid, type := ty, data := StripeEventData.subscriptionObj s } now).subscriptions =
        upsertSubscription db.subscriptions s m.deviceId now) ∧
      ((applyStripeEvent db { id := eid, type := ty, data := StripeEventData.subscriptionObj s } now).deviceMaps = db.deviceMaps) ∧
      (∀ r ∈ upsertSubscription db.subscriptions s m.deviceId now,
        r.providerSubscriptionId = s.id →
          r.status = s.status ∧ r.plan = planFromInterval s.priceInterval ∧
          r.currentPeriodEnd = msOfSeconds s.current_period_end ∧
          r.cancelAtPeriodEnd = msOfSeconds s.cancel_at_period_end ∧
          r.deviceId = m.deviceId) ∧
      (∃ r ∈ upsertSubscription db.subscriptions s m.deviceId now,
        r.providerSubscriptionId = s.id)) := by
  have hcore : applyStripeEventCore db.subscriptions db.deviceMaps
      { id := eid, type := ty, data := StripeEventData.subscriptionObj s } now =
      handleSubscriptionUpsert db.subscriptions db.deviceMaps s now := by
    rcases hty with h | h <;> subst h <;> rfl
  constructor
  · intro hnone
    have hh : handleSubscriptionUpsert db.subscriptions db.deviceMaps s now =
        (db.subscriptions, db.deviceMaps) := by
      simp [handleSubscriptionUpsert, hnone]
    show { db with
      subscriptions := (applyStripeEventCore db.subscriptions db.deviceMaps _ now).1,
      deviceMaps := (applyStripeEventCore db.subscriptions db.deviceMaps _ now).2 } = db
    rw [hcore, hh]
  · intro m hm
    have hh : handleSubscriptionUpsert db.subscriptions db.deviceMaps s now =
        (upsertSubscription db.subscriptions s m.deviceId now, db.deviceMaps) := by
      simp [handleSubscriptionUpsert, hm]
    refine ⟨?_, ?_, (upsertSubscription_fields db.subscriptions s m.deviceId now).1,
      (upsertSubscription_fields db.subscriptions s m.deviceId now).2⟩
    · show (applyStripeEventCore db.subscriptions db.deviceMaps _ now).1 = _
      rw [hcore, hh]
    · show (applyStripeEventCore db.subscriptions db.deviceMaps _ now).2 = _
      rw [hcore, hh]

/-- Store for the C7 witness: only a subscription-key mapping exists. -/
def dbW7 : Db :=
  { subscriptions := [], usageCounters := [], webhookEvents := [],
    deviceMaps := [{ provider := "stripe", key := "subscription:sub1", deviceId := "devX" }] }

/-- Subscription object for the C7 witness: active with a monthly interval. -/
def sW7 : StripeSubscriptionObject :=
  { id := "sub1", customer := "cus1", status := "active", priceInterval := some "month", current_period_end := some 2000000000, cancel_at_period_end := none }

/-- C7 witness: an active monthly update whose subscription id is mapped to
devX upserts a row for sub1 (whose fields, by the theorem, are status
active, plan monthly, linked to devX). -/
theorem subscription_upsert_spec_witness :
    ((applyStripeEvent dbW7 { id := "evt1", type := "customer.subscription.updated", data := StripeEventData.subscriptionObj sW7 } 0).subscriptions =
      upsertSubscription ([] : List SubscriptionRow) sW7 "devX" 0) ∧
    (∃ r ∈ upsertSubscription ([] : List SubscriptionRow) sW7 "devX" 0,
      r.providerSubscriptionId = "sub1") :=
  have h := (subscription_upsert_spec dbW7 0 "evt1" "customer.subscription.updated" sW7
    (Or.inr rfl)).2 { provider := "stripe", key := "subscription:sub1", deviceId := "devX" }
    (by decide)
  ⟨h.1, h.2.2.2⟩

/-- C5 counterexample: for a fresh non-subscribed device the scan handler's
trace is gate check, then increment, then scan attempt: the consumption
record occurs strictly before the external scan work, refuting the claimed
order in which the scan attempt precedes the consumption record. -/
theorem scan_order_counterexample :
    ((scanHandler { subscriptions := [], usageCounters := [], webhookEvents := [], deviceMaps := [] } "dev-1" 0 true (some "analysis")).2.1 =
      [ScanEvent.gateCheck, ScanEvent.increment, ScanEvent.scanAttempt]) ∧
    ((scanHandler { subscriptions := [], usageCounters := [], webhookEvents := [], deviceMaps := [] } "dev-1" 0 true (some "analysis")).2.1.indexOf ScanEvent.increment <
      (scanHandler { subscriptions := [], usageCounters := [], webhookEvents := [], deviceMaps := [] } "dev-1" 0 true (some "analysis")).2.1.indexOf ScanEvent.scanAttempt) := by
  decide

/-- C5 amended: whenever the scan flow records a consumption (the increment
appears in the trace), the gate had permitted the scan and the device was
not subscribed, and the trace is exactly gate check, then increment, then
scan attempt — the gate check precedes the consumption record, which
precedes the scan attempt. -/
theorem scan_order_spec (db : Db) (deviceId : String) (now : Nat)
    (hasFile : Bool) (visionResult : Option String)
    (h : ScanEvent.increment ∈ (scanHandler db deviceId now hasFile visionResult).2.1) :
    ((scanHandler db deviceId now hasFile visionResult).2.1 =
      [ScanEvent.gateCheck, ScanEvent.increment, ScanEvent.scanAttempt]) ∧
    (canPerformScan db deviceId now).2.canScan = true ∧
    (getEntitlementByDevice (canPerformScan db deviceId now).1 deviceId now).2.active = false := by
  by_cases hg : (canPerformScan db deviceId now).2.canScan = true
  · by_cases ha : (getEntitlementByDevice (canPerformScan db deviceId now).1 deviceId now).2.active = true
    · exfalso
      have htr : (scanHandler db deviceId now hasFile visionResult).2.1 =
          [ScanEvent.gateCheck, ScanEvent.scanAttempt] := by
        simp [scanHandler, hg, ha]
      rw [htr] at h
      simp at h
    · have hb : (getEntitlementByDevice (canPerformScan db deviceId now).1 deviceId now).2.active = false := by
        cases hx : (getEntitlementByDevice (canPerformScan db deviceId now).1 deviceId now).2.active with
        | true => exact absurd hx ha
        | false => rfl
      refine ⟨?_, hg, hb⟩
      simp [scanHandler, hg, hb]
  · exfalso
    have hgf : (canPerformScan db deviceId now).2.canScan = false := by
      cases hx : (canPerformScan db deviceId now).2.canScan with
      | true => exact absurd hx hg
      | false => rfl
    have htr : (scanHandler db deviceId now hasFile visionResult).2.1 = [ScanEvent.gateCheck] := by
      simp [scanHandler, hgf]
    rw [htr] at h
    simp at h

/-- C5 amended witness: the fresh-device run produces exactly the ordered
trace. -/
theorem scan_order_spec_witness :
    (scanHandler { subscriptions := [], usageCounters := [], webhookEvents := [], deviceMaps := [] } "dev-1" 0 true (some "analysis")).2.1 =
      [ScanEvent.gateCheck, ScanEvent.increment, ScanEvent.scanAttempt] :=
  (scan_order_spec { subscriptions := [], usageCounters := [], webhookEvents := [], deviceMaps := [] }
    "dev-1" 0 true (some "analysis") (by decide)).1

/-- C10: for a non-subscribed device that passes the gate, the usage
increment is committed before the analysis step and is never rolled back:
when the analysis then fails (here: no image file was provided, a 400),
the one free scan is nonetheless consumed — the store holds the counter at
1 and a later canPerformScan denies with limit_exceeded. -/
theorem scan_failure_consumes_quota (db : Db) (deviceId : String) (now : Nat)
    (visionResult : Option String)
    (hsub : db.subscriptions.filter (subscriptionMatches deviceId now) = [])
    (hufresh : db.usageCounters.find? (fun u => u.deviceId == deviceId) = none) :
    ((scanHandler db deviceId now false visionResult).2.2 =
      { statusCode := 400, body := "No image provided" }) ∧
    ((scanHandler db deviceId now false visionResult).1.usageCounters.filter
      (fun u => u.deviceId == deviceId) = [{ deviceId := deviceId, scansUsed := 1 }]) ∧
    ((canPerformScan (scanHandler db deviceId now false visionResult).1 deviceId now).2 =
      { canScan := false, reason := some "limit_exceeded" }) := by
  have h1 : getOrCreateUsage db deviceId =
      ({ db with usageCounters := db.usageCounters ++ [{ deviceId := deviceId, scansUsed := 0 }] },
       { scansUsed := 0, limit := 1 }) := by
    simp [getOrCreateUsage, hufresh]
  have hent : getEntitlementByDevice db deviceId now =
      ({ db with usageCounters := db.usageCounters ++ [{ deviceId := deviceId, scansUsed := 0 }] },
       { active := false, scansUsed := 0, limit := 1, expiresAt := none }) := by
    simp [getEntitlementByDevice, hsub, findLatest, h1]
  have hgate : canPerformScan db deviceId now =
      ({ db with usageCounters := db.usageCounters ++ [{ deviceId := deviceId, scansUsed := 0 }] },
       { canScan := true, reason := none }) := by
    simp [canPerformScan, hent]
  have hfindU : (db.usageCounters ++
        ([{ deviceId := deviceId, scansUsed := 0 }] : List UsageCounterRow)).find?
      (fun u => u.deviceId == deviceId) = some { deviceId := deviceId, scansUsed := 0 } := by
    rw [find_append_of_none _ _ _ hufresh]
    simp [List.find?]
  have h2 : getOrCreateUsage
      ({ db with usageCounters := db.usageCounters ++ [{ deviceId := deviceId, scansUsed := 0 }] } : Db)
      deviceId =
      ({ db with usageCounters := db.usageCounters ++ [{ deviceId := deviceId, scansUsed := 0 }] },
       { scansUsed := 0, limit := 1 }) := by
    unfold getOrCreateUsage
    rw [show ({ db with usageCounters := db.usageCounters ++ [{ deviceId := deviceId, scansUsed := 0 }] } : Db).usageCounters = db.usageCounters ++ [{ deviceId := deviceId, scansUsed := 0 }] from rfl, hfindU]
  have hent2 : getEntitlementByDevice
      ({ db with usageCounters := db.usageCounters ++ [{ deviceId := deviceId, scansUsed := 0 }] } : Db)
      deviceId now =
      ({ db with usageCounters := db.usageCounters ++ [{ deviceId := deviceId, scansUsed := 0 }] },
       { active := false, scansUsed := 0, limit := 1, expiresAt := none }) := by
    simp [getEntitlementByDevice, h2, findLatest,
      show ({ db with usageCounters := db.usageCounters ++ [{ deviceId := deviceId, scansUsed := 0 }] } : Db).subscriptions = db.subscriptions from rfl, hsub]
  have hmapid : db.usageCounters.map
      (fun v => if v.deviceId == deviceId then { v with scansUsed := v.scansUsed + 1 } else v) =
      db.usageCounters := by
    apply map_eq_self_of_mem
    intro u hu
    have hne := List.find?_eq_none.mp hufresh u hu
    simp only [Bool.not_eq_true] at hne
    simp [hne]
  have hinc : incrementScanUsage
      ({ db with usageCounters := db.usageCounters ++ [{ deviceId := deviceId, scansUsed := 0 }] } : Db)
      deviceId =
      ({ db with usageCounters := db.usageCounters ++ [{ deviceId := deviceId, scansUsed := 1 }] },
       { scansUsed := 1, limit := 1 }) := by
    unfold incrementScanUsage
    rw [show ({ db with usageCounters := db.usageCounters ++ [{ deviceId := deviceId, scansUsed := 0 }] } : Db).usageCounters = db.usageCounters ++ [{ deviceId := deviceId, scansUsed := 0 }] from rfl, hfindU]
    rw [show (db.usageCounters ++ ([{ deviceId := deviceId, scansUsed := 0 }] : List UsageCounterRow)).map
        (fun v => if v.deviceId == deviceId then { v with scansUsed := v.scansUsed + 1 } else v) =
        db.usageCounters.map (fun v => if v.deviceId == deviceId then { v with scansUsed := v.scansUsed + 1 } else v) ++
        ([{ deviceId := deviceId, scansUsed := 0 }] : List UsageCounterRow).map (fun v => if v.deviceId == deviceId then { v with scansUsed := v.scansUsed + 1 } else v)
      from List.map_append _ _ _, hmapid]
    simp
  have hscan : scanHandler db deviceId now false visionResult =
      ({ db with usageCounters := db.usageCounters ++ [{ deviceId := deviceId, scansUsed := 1 }] },
       [ScanEvent.gateCheck, ScanEvent.increment, ScanEvent.scanAttempt],
       { statusCode := 400, body := "No image provided" }) := by
    simp [scanHandler, hgate, hent2, hinc, doScan]
  have hfindI : (db.usageCounters ++
        ([{ deviceId := deviceId, scansUsed := 1 }] : List UsageCounterRow)).find?
      (fun u => u.deviceId == deviceId) = some { deviceId := deviceId, scansUsed := 1 } := by
    rw [find_append_of_none _ _ _ hufresh]
    simp [List.find?]
  have h3 : getOrCreateUsage
      ({ db with usageCounters := db.usageCounters ++ [{ deviceId := deviceId, scansUsed := 1 }] } : Db)
      deviceId =
      ({ db with usageCounters := db.usageCounters ++ [{ deviceId := deviceId, scansUsed := 1 }] },
       { scansUsed := 1, limit := 1 }) := by
    unfold getOrCreateUsage
    rw [show ({ db with usageCounters := db.usageCounters ++ [{ deviceId := deviceId, scansUsed := 1 }] } : Db).usageCounters = db.usageCounters ++ [{ deviceId := deviceId, scansUsed := 1 }] from rfl, hfindI]
  have hent3 : getEntitlementByDevice
      ({ db with usageCounters := db.usageCounters ++ [{ deviceId := deviceId, scansUsed := 1 }] } : Db)
      deviceId now =
      ({ db with usageCounters := db.usageCounters ++ [{ deviceId := deviceId, scansUsed := 1 }] },
       { active := false, scansUsed := 1, limit := 1, expiresAt := none }) := by
    simp [getEntitlementByDevice, h3, findLatest,
      show ({ db with usageCounters := db.usageCounters ++ [{ deviceId := deviceId, scansUsed := 1 }] } : Db).subscriptions = db.subscriptions from rfl, hsub]
  refine ⟨?_, ?_, ?_⟩
  · rw [hscan]
  · rw [hscan]
    show (db.usageCounters ++ ([{ deviceId := deviceId, scansUsed := 1 }] : List UsageCounterRow)).filter
      (fun u => u.deviceId == deviceId) = _
    rw [List.filter_append, filter_eq_nil_of_find_none _ _ hufresh]
    simp [List.filter]
  · rw [hscan]
    simp [canPerformScan, hent3]

/-- C10 witness: the concrete fresh-device run with no uploaded image gets
400 yet a later gate check denies with limit_exceeded. -/
theorem scan_failure_consumes_quota_witness :
    (canPerformScan (scanHandler { subscriptions := [], usageCounters := [], webhookEvents := [], deviceMaps := [] } "dev-1" 0 false none).1 "dev-1" 0).2 =
      { canScan := false, reason := some "limit_exceeded" } :=
  (scan_failure_consumes_quota { subscriptions := [], usageCounters := [], webhookEvents := [], deviceMaps := [] }
    "dev-1" 0 none rfl rfl).2.2
